import Mathlib

/-!
Shallow embedding of the job-application backend (src/Backend/server.js).

Modelling conventions:
* A multipart request body is an association list from field name to string
  value; a field absent from the list models a JS `undefined` field.
* JS truthiness on these values: `undefined` and `""` are falsy, any other
  string is truthy.
* The `additional_education` body field is the only one the server reads as
  structured data, so it is modelled separately from the string map: the
  already-structured array branch is an explicit entry list, and a truthy
  value that fails `JSON.parse` or is not an array is the `malformed` case.
* The database is a list of rows plus the next SERIAL id.  JSONB preserves
  structure, so the `additional_education` column holds the entry list
  directly (INSERT always writes a stringified array, so the column is never
  NULL for rows created by this code path).
* The numeric currency columns (`expected_salary`, `last_salary`) and the
  server-clock `submission_date` column are outside the claims settled here
  and are not carried in the row model; SQL-level text coercion (e.g. a
  malformed DATE literal) is likewise not modelled.
* Filesystem effects are an oracle: which paths exist and which `unlinkSync`
  calls throw.
-/

/-- A submitted multipart body: field name to string value; absence models
`undefined`. -/
def Body := List (String × String)

/-- JS truthiness of a possibly-absent string field: `undefined` and the
empty string are falsy, every other string is truthy. -/
def jsTruthy : Option String → Bool
  | none => false
  | some s => !(s == "")

/-- The JS expression `!req.body[field] && req.body[field] !== ''` from the
required-field filter (server.js line 327). -/
def isMissing (b : Body) (f : String) : Bool :=
  !(jsTruthy (b.lookup f)) && !(b.lookup f == some "")

/-- The JS expression `req.body[field] && req.body[field] !== ''` used by
`validateEducationSection` (server.js lines 353 and 355). -/
def presentNonEmpty (b : Body) (f : String) : Bool :=
  jsTruthy (b.lookup f) && !(b.lookup f == some "")

/-- The required-field list of server.js lines 321-326. -/
def requiredFields : List String :=
  ["full_name", "email", "mobile", "dob", "parent_name", "gender", "nationality",
   "current_address", "permanent_address", "state", "city", "zipcode", "emergency_contact",
   "ssc_board", "ssc_year", "ssc_percentage", "job_role", "preferred_location",
   "notice_period", "skills", "experience_status"]

/-- `requiredFields.filter(field => !req.body[field] && req.body[field] !== '')`
(server.js line 327). -/
def missingFields (b : Body) : List String :=
  requiredFields.filter (fun f => isMissing b f)

/-- Base-10 digit prefix accumulated as a natural number. -/
def digitsToNat (ds : List Char) : Nat :=
  ds.foldl (fun n c => 10 * n + (c.toNat - '0'.toNat)) 0

/-- JS whitespace skipped by `parseInt`. -/
def isSpaceChar (c : Char) : Bool :=
  c == ' ' || c == '\t' || c == '\n' || c == '\r'

/-- Longest leading digit run; `none` when there is no leading digit
(`parseInt` returns NaN in that case). -/
def parseIntCore (cs : List Char) : Option Int :=
  let ds := cs.takeWhile Char.isDigit
  if ds.isEmpty then none else some ((digitsToNat ds : Nat) : Int)

/-- JS `parseInt(value, 10)`: skip leading whitespace, take an optional sign,
then the longest digit prefix; no digit yields NaN (`none`). -/
def parseIntJS (s : String) : Option Int :=
  match s.toList.dropWhile isSpaceChar with
  | '-' :: rest => (parseIntCore rest).map (fun n => -n)
  | '+' :: rest => parseIntCore rest
  | cs => parseIntCore cs

/-- `sanitizeInteger(value, fieldName, isNullable)` of server.js lines
334-344: empty/absent values give `null` when nullable and throw otherwise;
other values go through `parseInt(value, 10)` and throw on NaN. -/
def sanitizeInteger (value : Option String) (fieldName : String) (isNullable : Bool) :
    Except String (Option Int) :=
  match value with
  | none =>
    if isNullable then .ok none
    else .error ("Invalid " ++ fieldName ++ ": empty value not allowed for non-nullable field")
  | some s =>
    if s == "" then
      if isNullable then .ok none
      else .error ("Invalid " ++ fieldName ++ ": empty value not allowed for non-nullable field")
    else
      match parseIntJS s with
      | none => .error ("Invalid " ++ fieldName ++ ": \x22" ++ s ++ "\x22 is not a valid integer")
      | some n => .ok (some n)

/-- `validateEducationSection(fields)` of server.js lines 352-358: if any
field of the group is truthy, all must be truthy; an entirely falsy group
passes. -/
def validateEducationSection (b : Body) (fields : List String) : Bool :=
  if fields.any (fun f => presentNonEmpty b f) then
    fields.all (fun f => presentNonEmpty b f)
  else
    true

/-- The intermediate group (server.js line 360). -/
def intermediateFields : List String :=
  ["intermediate_board", "intermediate_year", "intermediate_percentage"]

/-- The graduation group (server.js line 361). -/
def graduationFields : List String :=
  ["college_name", "qualification", "branch", "graduation_year", "graduation_percentage"]

/-- `experienceValid` of server.js lines 362-364: either the status is not
"Experienced", or all six experience-detail fields are truthy. -/
def experienceValid (b : Body) : Bool :=
  !(b.lookup "experience_status" == some "Experienced") ||
    (jsTruthy (b.lookup "years_experience") && jsTruthy (b.lookup "company_name") &&
     jsTruthy (b.lookup "designation") && jsTruthy (b.lookup "work_location") &&
     jsTruthy (b.lookup "start_date") && jsTruthy (b.lookup "end_date"))

/-- One entry of `additional_education`; sub-fields may be absent, mirroring
a JS object with missing properties. -/
structure EduEntry where
  institution : Option String
  qualification : Option String
  year : Option String
  percentage : Option String
deriving DecidableEq

/-- The per-entry check of server.js line 387:
`!edu.institution || !edu.qualification || !edu.year || !edu.percentage`
rejects, so an entry is complete when all four sub-fields are truthy. -/
def entryComplete (e : EduEntry) : Bool :=
  jsTruthy e.institution && jsTruthy e.qualification &&
    jsTruthy e.year && jsTruthy e.percentage

/-- The `additional_education` request value (server.js lines 372-384):
falsy values leave the list empty; a structured array is used as is; a
truthy value that fails `JSON.parse` or is not an array is `malformed`. -/
inductive AddEduInput where
  | absent
  | structured (entries : List EduEntry)
  | malformed
deriving DecidableEq

/-- Outcome of the `additional_education` processing block
(server.js lines 372-384). -/
inductive AddEduOutcome where
  | ok (entries : List EduEntry)
  | invalid
deriving DecidableEq

/-- server.js lines 372-384: absent input keeps `[]`, a structured array is
kept, anything else answers `Invalid additional_education format`. -/
def processAdditionalEducation : AddEduInput → AddEduOutcome
  | .absent => .ok []
  | .structured es => .ok es
  | .malformed => .invalid

/-- One row of the `applications` table, with the columns the settled claims
touch (see the file header for the omitted columns). -/
structure Row where
  id : Nat
  full_name : Option String
  email : Option String
  mobile : Option String
  dob : Option String
  parent_name : Option String
  gender : Option String
  nationality : Option String
  marital_status : Option String
  current_address : Option String
  permanent_address : Option String
  state : Option String
  city : Option String
  zipcode : Option String
  emergency_contact : Option String
  ssc_board : Option String
  ssc_year : Option Int
  ssc_percentage : Option String
  intermediate_board : Option String
  intermediate_year : Option Int
  intermediate_percentage : Option String
  college_name : Option String
  qualification : Option String
  branch : Option String
  graduation_year : Option Int
  graduation_percentage : Option String
  additional_education : List EduEntry
  job_role : Option String
  preferred_location : Option String
  notice_period : Option String
  skills : Option String
  experience_status : Option String
  years_experience : Option Int
  company_name : Option String
  designation : Option String
  work_location : Option String
  start_date : Option String
  end_date : Option String
  alt_mobile : Option String
  linkedin : Option String
  github : Option String
  certifications : Option String
  reference_name : Option String
  reference_email : Option String
  resume_path : Option String
  cover_letter_path : Option String
  status : Option String
deriving DecidableEq

/-- Database state: the `applications` rows plus the next SERIAL id. -/
structure DBState where
  rows : List Row
  nextId : Nat
deriving DecidableEq

/-- Result of an INSERT against the schema of `createApplicationsTable`. -/
inductive InsertOutcome where
  | inserted (id : Nat)
  | duplicateEmail
  | notNullViolation
deriving DecidableEq

/-- The NOT NULL columns (among the modelled ones) declared by
`createApplicationsTable` (server.js lines 61-113). -/
def notNullOk (r : Row) : Bool :=
  r.full_name.isSome && r.email.isSome && r.mobile.isSome && r.dob.isSome &&
  r.parent_name.isSome && r.gender.isSome && r.nationality.isSome &&
  r.current_address.isSome && r.permanent_address.isSome && r.state.isSome &&
  r.city.isSome && r.zipcode.isSome && r.emergency_contact.isSome &&
  r.ssc_board.isSome && r.ssc_year.isSome && r.ssc_percentage.isSome &&
  r.job_role.isSome && r.preferred_location.isSome && r.notice_period.isSome &&
  r.skills.isSome && r.experience_status.isSome && r.resume_path.isSome

/-- INSERT semantics for the declared schema: NOT NULL columns must be
present, and the UNIQUE constraint on `email` (server.js line 65) rejects a
row whose (non-null) email already occurs. -/
def insertRow (db : DBState) (mk : Nat → Row) : InsertOutcome × DBState :=
  let r := mk db.nextId
  if !(notNullOk r) then (.notNullViolation, db)
  else if db.rows.any (fun x => x.email == r.email && r.email.isSome) then
    (.duplicateEmail, db)
  else
    (.inserted r.id, ⟨db.rows ++ [r], db.nextId + 1⟩)

/-- The submission request: the string-field body, the structured
`additional_education` value, and the multer-produced file paths
(`null` when the file part is absent). -/
structure SubmitRequest where
  body : Body
  additional_education : AddEduInput
  resumePath : Option String
  coverLetterPath : Option String

/-- Response of `POST /api/submit`, one constructor per exit of the handler
(server.js lines 295-448). -/
inductive SubmitResult where
  | missingFieldsErr (missing : List String)
  | sanitizeErr (msg : String)
  | incompleteSection
  | invalidAdditionalEducation
  | incompleteAdditionalEducation
  | resumeRequired
  | dbError (msg : String)
  | success (id : Nat)
deriving DecidableEq

/-- The VALUES array of server.js lines 421-432: raw body values (absent
ones become NULL), the sanitized integers, the processed entry list, the
file paths, and status forced to "Pending". -/
def buildRow (b : Body) (sscY interY gradY yearsE : Option Int)
    (entries : List EduEntry) (resumeP coverP : Option String) (newId : Nat) : Row where
  id := newId
  full_name := b.lookup "full_name"
  email := b.lookup "email"
  mobile := b.lookup "mobile"
  dob := b.lookup "dob"
  parent_name := b.lookup "parent_name"
  gender := b.lookup "gender"
  nationality := b.lookup "nationality"
  marital_status := b.lookup "marital_status"
  current_address := b.lookup "current_address"
  permanent_address := b.lookup "permanent_address"
  state := b.lookup "state"
  city := b.lookup "city"
  zipcode := b.lookup "zipcode"
  emergency_contact := b.lookup "emergency_contact"
  ssc_board := b.lookup "ssc_board"
  ssc_year := sscY
  ssc_percentage := b.lookup "ssc_percentage"
  intermediate_board := b.lookup "intermediate_board"
  intermediate_year := interY
  intermediate_percentage := b.lookup "intermediate_percentage"
  college_name := b.lookup "college_name"
  qualification := b.lookup "qualification"
  branch := b.lookup "branch"
  graduation_year := gradY
  graduation_percentage := b.lookup "graduation_percentage"
  additional_education := entries
  job_role := b.lookup "job_role"
  preferred_location := b.lookup "preferred_location"
  notice_period := b.lookup "notice_period"
  skills := b.lookup "skills"
  experience_status := b.lookup "experience_status"
  years_experience := yearsE
  company_name := b.lookup "company_name"
  designation := b.lookup "designation"
  work_location := b.lookup "work_location"
  start_date := b.lookup "start_date"
  end_date := b.lookup "end_date"
  alt_mobile := b.lookup "alt_mobile"
  linkedin := b.lookup "linkedin"
  github := b.lookup "github"
  certifications := b.lookup "certifications"
  reference_name := b.lookup "reference_name"
  reference_email := b.lookup "reference_email"
  resume_path := resumeP
  cover_letter_path := coverP
  status := some "Pending"

/-- The `POST /api/submit` handler (server.js lines 295-448), stage by
stage: required-field filter, the four `sanitizeInteger` calls in source
order (a thrown error reaches the outer catch and answers 500), the three
group validators, `additional_education` processing and per-entry check,
the resume-presence check, and finally the INSERT. -/
def submit (db : DBState) (req : SubmitRequest) : SubmitResult × DBState :=
  if (missingFields req.body).length > 0 then
    (.missingFieldsErr (missingFields req.body), db)
  else
    match sanitizeInteger (req.body.lookup "ssc_year") "ssc_year" false with
    | .error m => (.sanitizeErr m, db)
    | .ok sscY =>
    match sanitizeInteger (req.body.lookup "intermediate_year") "intermediate_year" true with
    | .error m => (.sanitizeErr m, db)
    | .ok interY =>
    match sanitizeInteger (req.body.lookup "graduation_year") "graduation_year" true with
    | .error m => (.sanitizeErr m, db)
    | .ok gradY =>
    match sanitizeInteger (req.body.lookup "years_experience") "years_experience" true with
    | .error m => (.sanitizeErr m, db)
    | .ok yearsE =>
    if !(validateEducationSection req.body intermediateFields) ||
       !(validateEducationSection req.body graduationFields) ||
       !(experienceValid req.body) then
      (.incompleteSection, db)
    else
      match processAdditionalEducation req.additional_education with
      | .invalid => (.invalidAdditionalEducation, db)
      | .ok entries =>
        if !(entries.all entryComplete) then
          (.incompleteAdditionalEducation, db)
        else if !(jsTruthy req.resumePath) then
          (.resumeRequired, db)
        else
          match insertRow db
              (buildRow req.body sscY interY gradY yearsE entries
                req.resumePath req.coverLetterPath) with
          | (.inserted i, db2) => (.success i, db2)
          | (.duplicateEmail, db2) =>
            (.dbError "duplicate key value violates unique constraint", db2)
          | (.notNullViolation, db2) =>
            (.dbError "null value violates not-null constraint", db2)

/-- `GET /api/applications/:id` (server.js lines 451-495): row lookup; the
`additional_education` column already holds a structured list in this model
(JSONB), so the handler's decode-or-default normalization is the
identity on rows produced by `submit`. -/
def getById (db : DBState) (i : Nat) : Option Row :=
  db.rows.find? (fun r => r.id == i)

/-- The status enum of server.js line 523. -/
def allowedStatuses : List String :=
  ["Pending", "Approved", "Rejected", "Under Review"]

/-- Response of `PUT /api/applications/:id/status`. -/
inductive StatusUpdateResult where
  | invalidStatus
  | notFound
  | ok (id : Nat)
deriving DecidableEq

/-- The JS check `['Pending', 'Approved', 'Rejected', 'Under Review'].includes(status)`
(server.js line 523); `includes(undefined)` is false. -/
def statusAllowed : Option String → Bool
  | none => false
  | some s => allowedStatuses.contains s

/-- `PUT /api/applications/:id/status` (server.js lines 517-542): the enum
check runs before any query (an absent body status is not in the enum); the
UPDATE sets the status of every row with the given id and answers 404 when
no row matched. -/
def updateStatus (db : DBState) (i : Nat) (status : Option String) :
    StatusUpdateResult × DBState :=
  if !(statusAllowed status) then (.invalidStatus, db)
  else
    match status with
    | none => (.invalidStatus, db)
    | some s =>
      if db.rows.any (fun r => r.id == i) then
        (.ok i,
         ⟨db.rows.map (fun r => if r.id == i then { r with status := some s } else r),
          db.nextId⟩)
      else (.notFound, db)

/-- Filesystem oracle: which paths `fs.existsSync` reports and which
`fs.unlinkSync` calls throw.  The post-unlink state of the filesystem is
not tracked; only its influence on the handlers' control flow is. -/
structure FSModel where
  fileExists : String → Bool
  unlinkFails : String → Bool

/-- server.js lines 563-570: `path && fs.existsSync(path)` guards the
unlink, so an unlink only throws when the path is truthy, the file exists
and `unlinkSync` fails. -/
def unlinkThrows (fs : FSModel) : Option String → Bool
  | none => false
  | some p => jsTruthy (some p) && fs.fileExists p && fs.unlinkFails p

/-- Response of `DELETE /api/applications/:id`; `errCaught` is the outer
catch answering 500 (server.js lines 578-581). -/
inductive DeleteResult where
  | notFound
  | ok (id : Nat)
  | errCaught
deriving DecidableEq

/-- `DELETE /api/applications/:id` (server.js lines 545-582): 404 when the
id is absent; otherwise the DELETE query runs first, then the resume and
cover-letter unlinks in that order with no inner catch, so a thrown unlink
reaches the outer catch (500) although the row is already gone. -/
def deleteApp (db : DBState) (fs : FSModel) (i : Nat) : DeleteResult × DBState :=
  match db.rows.find? (fun r => r.id == i) with
  | none => (.notFound, db)
  | some row =>
    let db2 : DBState := ⟨db.rows.filter (fun r => !(r.id == i)), db.nextId⟩
    if unlinkThrows fs row.resume_path then (.errCaught, db2)
    else if unlinkThrows fs row.cover_letter_path then (.errCaught, db2)
    else (.ok i, db2)

/-- Response of `DELETE /api/clear`. -/
inductive ClearResult where
  | ok
deriving DecidableEq

/-- `DELETE /api/clear` (server.js lines 585-609): the upload-directory
cleanup runs fire-and-forget with every error handled inside the readdir
and unlink callbacks (logged only), so the filesystem oracle cannot change
the outcome; `TRUNCATE ... RESTART IDENTITY` empties the table and resets
the SERIAL counter. -/
def clearAll (_db : DBState) (_fs : FSModel) : ClearResult × DBState :=
  (.ok, ⟨[], 1⟩)

/-- The JS literal values used as `defaultValue` in `expectedColumns`. -/
inductive JSValue where
  | nullV
  | strV (s : String)
  | numV (n : Int)
deriving DecidableEq

/-- One entry of the `expectedColumns` array (server.js lines 125-176);
`nullable` is `none` for the `id` entry, which has no such key. -/
structure ColumnSpec where
  name : String
  type : String
  nullable : Option Bool
  defaultValue : JSValue
deriving DecidableEq

/-- The `expectedColumns` array of server.js lines 125-176. -/
def expectedColumns : List ColumnSpec :=
  [⟨"id", "SERIAL PRIMARY KEY", none, .nullV⟩,
   ⟨"full_name", "VARCHAR(255)", some false, .strV ""⟩,
   ⟨"email", "VARCHAR(255)", some false, .strV ""⟩,
   ⟨"mobile", "VARCHAR(20)", some false, .strV ""⟩,
   ⟨"dob", "DATE", some false, .strV "1970-01-01"⟩,
   ⟨"parent_name", "VARCHAR(255)", some false, .strV ""⟩,
   ⟨"gender", "VARCHAR(50)", some false, .strV ""⟩,
   ⟨"nationality", "VARCHAR(100)", some false, .strV ""⟩,
   ⟨"marital_status", "VARCHAR(50)", some true, .nullV⟩,
   ⟨"current_address", "TEXT", some false, .strV ""⟩,
   ⟨"permanent_address", "TEXT", some false, .strV ""⟩,
   ⟨"state", "VARCHAR(100)", some false, .strV ""⟩,
   ⟨"city", "VARCHAR(100)", some false, .strV ""⟩,
   ⟨"zipcode", "VARCHAR(20)", some false, .strV ""⟩,
   ⟨"emergency_contact", "VARCHAR(255)", some false, .strV ""⟩,
   ⟨"ssc_board", "VARCHAR(255)", some false, .strV ""⟩,
   ⟨"ssc_year", "INTEGER", some false, .numV 0⟩,
   ⟨"ssc_percentage", "VARCHAR(10)", some false, .strV ""⟩,
   ⟨"intermediate_board", "VARCHAR(255)", some true, .nullV⟩,
   ⟨"intermediate_year", "INTEGER", some true, .nullV⟩,
   ⟨"intermediate_percentage", "VARCHAR(10)", some true, .nullV⟩,
   ⟨"college_name", "VARCHAR(255)", some true, .nullV⟩,
   ⟨"qualification", "VARCHAR(255)", some true, .nullV⟩,
   ⟨"branch", "VARCHAR(255)", some true, .nullV⟩,
   ⟨"graduation_year", "INTEGER", some true, .nullV⟩,
   ⟨"graduation_percentage", "VARCHAR(10)", some true, .nullV⟩,
   ⟨"additional_education", "JSONB", some true, .nullV⟩,
   ⟨"job_role", "VARCHAR(255)", some false, .strV ""⟩,
   ⟨"preferred_location", "VARCHAR(255)", some false, .strV ""⟩,
   ⟨"notice_period", "VARCHAR(100)", some false, .strV ""⟩,
   ⟨"expected_salary", "NUMERIC", some true, .nullV⟩,
   ⟨"skills", "TEXT", some false, .strV ""⟩,
   ⟨"experience_status", "VARCHAR(50)", some false, .strV ""⟩,
   ⟨"years_experience", "INTEGER", some true, .nullV⟩,
   ⟨"company_name", "VARCHAR(255)", some true, .nullV⟩,
   ⟨"designation", "VARCHAR(255)", some true, .nullV⟩,
   ⟨"work_location", "VARCHAR(255)", some true, .nullV⟩,
   ⟨"start_date", "VARCHAR(20)", some true, .nullV⟩,
   ⟨"end_date", "VARCHAR(20)", some true, .nullV⟩,
   ⟨"last_salary", "NUMERIC", some true, .nullV⟩,
   ⟨"alt_mobile", "VARCHAR(20)", some true, .nullV⟩,
   ⟨"linkedin", "VARCHAR(255)", some true, .nullV⟩,
   ⟨"github", "VARCHAR(255)", some true, .nullV⟩,
   ⟨"certifications", "TEXT", some true, .nullV⟩,
   ⟨"reference_name", "VARCHAR(255)", some true, .nullV⟩,
   ⟨"reference_email", "VARCHAR(255)", some true, .nullV⟩,
   ⟨"resume_path", "VARCHAR(255)", some false, .strV ""⟩,
   ⟨"cover_letter_path", "VARCHAR(255)", some true, .nullV⟩,
   ⟨"submission_date", "TIMESTAMP", some false, .strV "CURRENT_TIMESTAMP"⟩,
   ⟨"status", "VARCHAR(50)", some true, .strV "Pending"⟩]

/-- server.js lines 192-194: the expected columns whose name is absent from
the introspected column set, in declaration order (filter preserves it). -/
def missingColumns (existing : List String) : List ColumnSpec :=
  expectedColumns.filter (fun c => !(existing.any (fun exn => exn == c.name)))

/-- Outcome of one sync run: the columns whose ALTER statements succeeded,
and the column whose addition threw, if any. -/
structure SyncOutcome where
  added : List String
  failed : Option String
deriving DecidableEq

/-- The for loop of server.js lines 196-237 together with the single catch
at lines 238-240: columns are processed in order; the statements of one
column may throw (the `alterFails` oracle), and the throw leaves the loop
for the catch, so no later column is attempted — but the error does not
escape the function. -/
def runColumnAdds (alterFails : String → Bool) : List ColumnSpec → SyncOutcome
  | [] => ⟨[], none⟩
  | c :: rest =>
    if alterFails c.name then ⟨[], some c.name⟩
    else
      let o := runColumnAdds alterFails rest
      ⟨c.name :: o.added, o.failed⟩

/-- `syncApplicationsTable` (server.js lines 124-241) as a function of the
introspected column names and the per-column failure oracle. -/
def syncApplicationsTable (existing : List String) (alterFails : String → Bool) :
    SyncOutcome :=
  runColumnAdds alterFails (missingColumns existing)

/-! ## Concrete data used by the witness theorems -/

/-- A fully valid fresher body covering every required field. -/
def baseBody : Body :=
  [("full_name", "Asha Rao"), ("email", "asha@example.com"), ("mobile", "9999999999"),
   ("dob", "1995-05-05"), ("parent_name", "R Rao"), ("gender", "F"), ("nationality", "Indian"),
   ("current_address", "Addr 1"), ("permanent_address", "Addr 2"), ("state", "TS"),
   ("city", "Hyderabad"), ("zipcode", "500001"), ("emergency_contact", "8888888888"),
   ("ssc_board", "State Board"), ("ssc_year", "2010"), ("ssc_percentage", "85"),
   ("job_role", "Developer"), ("preferred_location", "Hyderabad"),
   ("notice_period", "30 days"), ("skills", "JavaScript"), ("experience_status", "Fresher")]

/-- The empty table with the SERIAL counter at its initial value. -/
def emptyDB : DBState := ⟨[], 1⟩

/-- A valid submission over `baseBody` with a resume file and nothing else. -/
def baseReq : SubmitRequest :=
  ⟨baseBody, .absent, some "Uploads/resume-1.pdf", none⟩

/-- `baseBody` with both `full_name` and `skills` omitted. -/
def c1Body : Body :=
  [("email", "asha@example.com"), ("mobile", "9999999999"),
   ("dob", "1995-05-05"), ("parent_name", "R Rao"), ("gender", "F"), ("nationality", "Indian"),
   ("current_address", "Addr 1"), ("permanent_address", "Addr 2"), ("state", "TS"),
   ("city", "Hyderabad"), ("zipcode", "500001"), ("emergency_contact", "8888888888"),
   ("ssc_board", "State Board"), ("ssc_year", "2010"), ("ssc_percentage", "85"),
   ("job_role", "Developer"), ("preferred_location", "Hyderabad"),
   ("notice_period", "30 days"), ("experience_status", "Fresher")]

/-- Submission with two required fields absent. -/
def c1Req : SubmitRequest := ⟨c1Body, .absent, some "Uploads/resume-1.pdf", none⟩

/-- `baseBody` plus an intermediate board with year and percentage left out. -/
def c2Body : Body := ("intermediate_board", "CBSE") :: baseBody

/-- Submission with a partially filled intermediate group. -/
def c2Req : SubmitRequest := ⟨c2Body, .absent, some "Uploads/resume-1.pdf", none⟩

/-- An experienced body with `years_experience` set but `company_name`
empty and the other detail fields absent. -/
def c3BadBody : Body :=
  ("years_experience", "2") :: ("company_name", "") ::
    (baseBody.filter (fun kv => !(kv.fst == "experience_status"))) ++
    [("experience_status", "Experienced")]

/-- Rejected experienced submission. -/
def c3BadReq : SubmitRequest := ⟨c3BadBody, .absent, some "Uploads/resume-1.pdf", none⟩

/-- An experienced body with all six detail fields set. -/
def c3GoodBody : Body :=
  ("years_experience", "2") :: ("company_name", "Acme") :: ("designation", "Engineer") ::
  ("work_location", "Pune") :: ("start_date", "2020-01-01") :: ("end_date", "2022-01-01") ::
    (baseBody.filter (fun kv => !(kv.fst == "experience_status"))) ++
    [("experience_status", "Experienced")]

/-- Accepted experienced submission. -/
def c3GoodReq : SubmitRequest := ⟨c3GoodBody, .absent, some "Uploads/resume-1.pdf", none⟩

/-- The single additional-education entry of the spec example. -/
def c5Entry : EduEntry := ⟨some "X", some "Y", some "2020", some "80"⟩

/-- The same entry with `percentage` missing. -/
def c5BadEntry : EduEntry := ⟨some "X", some "Y", some "2020", none⟩

/-- Valid submission carrying one complete additional-education entry. -/
def c5GoodReq : SubmitRequest :=
  ⟨baseBody, .structured [c5Entry], some "Uploads/resume-1.pdf", none⟩

/-- Submission whose single additional-education entry lacks `percentage`. -/
def c5BadReq : SubmitRequest :=
  ⟨baseBody, .structured [c5BadEntry], some "Uploads/resume-1.pdf", none⟩

/-- The row `submit emptyDB baseReq` stores. -/
def baseRow : Row :=
  buildRow baseBody (some 2010) none none none [] (some "Uploads/resume-1.pdf") none 1

/-- A one-row table holding `baseRow`. -/
def oneRowDB : DBState := ⟨[baseRow], 2⟩

/-- A second applicant reusing the first one's email address. -/
def c6Mk : Nat → Row :=
  buildRow (("company_name", "Acme") :: c1Body ++ [("full_name", "B Rao"), ("skills", "SQL")])
    (some 2012) none none none [] (some "Uploads/resume-2.pdf") none

/-- A fresher body with `company_name` set while `designation` and the rest
of the experience details stay absent. -/
def c10Body : Body := ("company_name", "Acme") :: baseBody

/-- Submission with a partially filled experience group and a
non-"Experienced" status. -/
def c10Req : SubmitRequest := ⟨c10Body, .absent, some "Uploads/resume-1.pdf", none⟩

/-- Filesystem oracle on which every file exists and every unlink throws. -/
def fsAllFail : FSModel := ⟨fun _ => true, fun _ => true⟩

/-- Filesystem oracle on which every unlink succeeds. -/
def fsAllOk : FSModel := ⟨fun _ => true, fun _ => false⟩

/-! ## Helper lemmas -/

/-- The required-field filter condition holds exactly for absent
(`undefined`) fields: a value of `""` does not count as missing. -/
theorem isMissing_eq_isNone (b : Body) (f : String) :
    isMissing b f = (b.lookup f).isNone := by
  cases h : b.lookup f with
  | none => simp [isMissing, h, jsTruthy]
  | some s => simp [isMissing, h, jsTruthy]

/-- The group validator's per-field condition agrees with plain JS
truthiness of the field. -/
theorem presentNonEmpty_eq_jsTruthy (b : Body) (f : String) :
    presentNonEmpty b f = jsTruthy (b.lookup f) := by
  cases h : b.lookup f with
  | none => simp [presentNonEmpty, h, jsTruthy]
  | some s =>
    by_cases hs : s = ""
    · subst hs; simp [presentNonEmpty, h, jsTruthy]
    · simp [presentNonEmpty, h, jsTruthy, hs]

/-- Membership in the computed missing-field list. -/
theorem mem_missingFields (b : Body) (f : String) :
    f ∈ missingFields b ↔ (f ∈ requiredFields ∧ b.lookup f = none) := by
  simp [missingFields, List.mem_filter, isMissing_eq_isNone,
    Option.isNone_iff_eq_none]

/-- When the missing-field list is empty, every required field is present. -/
theorem lookup_isSome_of_no_missing (b : Body) (f : String)
    (hmiss : missingFields b = []) (hf : f ∈ requiredFields) :
    (b.lookup f).isSome = true := by
  by_contra h
  have hnone : b.lookup f = none := by
    cases hl : b.lookup f with
    | none => rfl
    | some s => rw [hl] at h; simp at h
  have : f ∈ missingFields b := (mem_missingFields b f).mpr ⟨hf, hnone⟩
  rw [hmiss] at this
  exact absurd this (List.not_mem_nil f)

/-- A truthy optional string is present. -/
theorem isSome_of_jsTruthy (o : Option String) (h : jsTruthy o = true) :
    o.isSome = true := by
  cases o with
  | none => simp [jsTruthy] at h
  | some s => rfl

/-- A non-nullable `sanitizeInteger` success always carries a value. -/
theorem sanitizeInteger_ok_nonnullable_isSome (v : Option String) (f : String)
    (y : Option Int) (h : sanitizeInteger v f false = .ok y) :
    y.isSome = true := by
  cases v with
  | none => simp [sanitizeInteger] at h
  | some s =>
    by_cases hs : s == ""
    · simp [sanitizeInteger, hs] at h
    · cases hp : parseIntJS s with
      | none => simp [sanitizeInteger, hs, hp] at h
      | some n =>
        simp [sanitizeInteger, hs, hp] at h
        rw [← h]
        rfl

/-- A group with one truthy and one falsy field fails the validator. -/
theorem validateEducationSection_false_of_mixed (b : Body) (fields : List String)
    (hsome : ∃ f ∈ fields, jsTruthy (b.lookup f) = true)
    (hnot : ∃ f ∈ fields, jsTruthy (b.lookup f) = false) :
    validateEducationSection b fields = false := by
  obtain ⟨f1, hf1, ht⟩ := hsome
  obtain ⟨f2, hf2, hfalse⟩ := hnot
  have hany : fields.any (fun f => presentNonEmpty b f) = true := by
    rw [List.any_eq_true]
    exact ⟨f1, hf1, by rw [presentNonEmpty_eq_jsTruthy]; exact ht⟩
  unfold validateEducationSection
  rw [if_pos hany]
  cases hall : fields.all (fun f => presentNonEmpty b f) with
  | false => rfl
  | true =>
    have := List.all_eq_true.mp hall f2 hf2
    rw [presentNonEmpty_eq_jsTruthy, hfalse] at this
    exact absurd this (by simp)

/-- A group that is entirely falsy or entirely truthy passes the validator. -/
theorem validateEducationSection_true_of_uniform (b : Body) (fields : List String)
    (h : (∀ f ∈ fields, jsTruthy (b.lookup f) = false) ∨
         (∀ f ∈ fields, jsTruthy (b.lookup f) = true)) :
    validateEducationSection b fields = true := by
  unfold validateEducationSection
  cases h with
  | inl hall =>
    have hany : fields.any (fun f => presentNonEmpty b f) = false := by
      cases ha : fields.any (fun f => presentNonEmpty b f) with
      | false => rfl
      | true =>
        obtain ⟨f, hf, hp⟩ := List.any_eq_true.mp ha
        rw [presentNonEmpty_eq_jsTruthy, hall f hf] at hp
        exact absurd hp (by simp)
    rw [hany]
    simp
  | inr hall =>
    by_cases ha : fields.any (fun f => presentNonEmpty b f) = true
    · rw [if_pos ha, List.all_eq_true]
      intro f hf
      rw [presentNonEmpty_eq_jsTruthy]
      exact hall f hf
    · rw [if_neg ha]

/-- A row built by the submit handler satisfies every modelled NOT NULL
constraint once the required-field check passed, the non-nullable
`ssc_year` sanitization succeeded, and the resume file is present. -/
theorem notNullOk_buildRow (b : Body) (y1 y2 y3 y4 : Option Int)
    (entries : List EduEntry) (rp cp : Option String)
    (hmiss : missingFields b = []) (hy1 : y1.isSome = true)
    (hrp : rp.isSome = true) :
    notNullOk (buildRow b y1 y2 y3 y4 entries rp cp n) = true := by
  have H : ∀ f, f ∈ requiredFields → (b.lookup f).isSome = true :=
    fun f hf => lookup_isSome_of_no_missing b f hmiss hf
  simp only [notNullOk, buildRow, Bool.and_eq_true]
  refine ⟨⟨⟨⟨⟨⟨⟨⟨⟨⟨⟨⟨⟨⟨⟨⟨⟨⟨⟨⟨⟨?_, ?_⟩, ?_⟩, ?_⟩, ?_⟩, ?_⟩, ?_⟩, ?_⟩, ?_⟩, ?_⟩,
    ?_⟩, ?_⟩, ?_⟩, ?_⟩, ?_⟩, ?_⟩, ?_⟩, ?_⟩, ?_⟩, ?_⟩, ?_⟩, ?_⟩
  · exact H "full_name" (by decide)
  · exact H "email" (by decide)
  · exact H "mobile" (by decide)
  · exact H "dob" (by decide)
  · exact H "parent_name" (by decide)
  · exact H "gender" (by decide)
  · exact H "nationality" (by decide)
  · exact H "current_address" (by decide)
  · exact H "permanent_address" (by decide)
  · exact H "state" (by decide)
  · exact H "city" (by decide)
  · exact H "zipcode" (by decide)
  · exact H "emergency_contact" (by decide)
  · exact H "ssc_board" (by decide)
  · exact hy1
  · exact H "ssc_percentage" (by decide)
  · exact H "job_role" (by decide)
  · exact H "preferred_location" (by decide)
  · exact H "notice_period" (by decide)
  · exact H "skills" (by decide)
  · exact H "experience_status" (by decide)
  · exact hrp

/-- Once the required-field and integer-sanitation stages pass, an invalid
group condition makes the handler answer `Incomplete optional section data`
without touching the database. -/
theorem submit_steps_to_groups (db : DBState) (req : SubmitRequest)
    (y1 y2 y3 y4 : Option Int)
    (hmiss : missingFields req.body = [])
    (h1 : sanitizeInteger (req.body.lookup "ssc_year") "ssc_year" false = .ok y1)
    (h2 : sanitizeInteger (req.body.lookup "intermediate_year") "intermediate_year" true = .ok y2)
    (h3 : sanitizeInteger (req.body.lookup "graduation_year") "graduation_year" true = .ok y3)
    (h4 : sanitizeInteger (req.body.lookup "years_experience") "years_experience" true = .ok y4)
    (hbad : (!(validateEducationSection req.body intermediateFields) ||
             !(validateEducationSection req.body graduationFields) ||
             !(experienceValid req.body)) = true) :
    submit db req = (.incompleteSection, db) := by
  unfold submit
  rw [hmiss]
  simp only [List.length_nil, gt_iff_lt, Nat.lt_irrefl, if_false]
  rw [h1, h2, h3, h4]
  simp only []
  rw [if_pos hbad]

/-- Full characterization of an accepted submission: every stage passes and
the built row is appended with the next SERIAL id. -/
theorem submit_success_char (db : DBState) (req : SubmitRequest)
    (y1 y2 y3 y4 : Option Int) (entries : List EduEntry)
    (hmiss : missingFields req.body = [])
    (h1 : sanitizeInteger (req.body.lookup "ssc_year") "ssc_year" false = .ok y1)
    (h2 : sanitizeInteger (req.body.lookup "intermediate_year") "intermediate_year" true = .ok y2)
    (h3 : sanitizeInteger (req.body.lookup "graduation_year") "graduation_year" true = .ok y3)
    (h4 : sanitizeInteger (req.body.lookup "years_experience") "years_experience" true = .ok y4)
    (hint : validateEducationSection req.body intermediateFields = true)
    (hgrad : validateEducationSection req.body graduationFields = true)
    (hexp : experienceValid req.body = true)
    (hadd : processAdditionalEducation req.additional_education = .ok entries)
    (hcomp : entries.all entryComplete = true)
    (hres : jsTruthy req.resumePath = true)
    (hdup : db.rows.any (fun x =>
        x.email == req.body.lookup "email" && (req.body.lookup "email").isSome) = false) :
    submit db req = (.success db.nextId,
      ⟨db.rows ++ [buildRow req.body y1 y2 y3 y4 entries req.resumePath
          req.coverLetterPath db.nextId],
       db.nextId + 1⟩) := by
  unfold submit
  rw [hmiss]
  simp only [List.length_nil, gt_iff_lt, Nat.lt_irrefl, if_false]
  rw [h1, h2, h3, h4]
  simp only []
  rw [hint, hgrad, hexp]
  simp only [Bool.not_true, Bool.or_self, Bool.false_or, Bool.or_false, if_false]
  rw [hadd]
  simp only []
  rw [hcomp]
  simp only [Bool.not_true, if_false]
  rw [hres]
  simp only [Bool.not_true, if_false]
  unfold insertRow
  simp only []
  have hnn := notNullOk_buildRow req.body y1 y2 y3 y4 entries req.resumePath
    req.coverLetterPath (n := db.nextId) hmiss
    (sanitizeInteger_ok_nonnullable_isSome _ _ _ h1) (isSome_of_jsTruthy _ hres)
  rw [hnn]
  have hdup2 : db.rows.any (fun x =>
      x.email == (buildRow req.body y1 y2 y3 y4 entries req.resumePath
        req.coverLetterPath db.nextId).email &&
      (buildRow req.body y1 y2 y3 y4 entries req.resumePath
        req.coverLetterPath db.nextId).email.isSome) = false := hdup
  rw [hdup2]
  simp [buildRow]

/-- Appending a fresh row makes it findable when nothing before it
matches. -/
theorem find?_append_singleton (l : List Row) (r : Row) (p : Row → Bool)
    (h : ∀ x ∈ l, p x = false) (hp : p r = true) :
    (l ++ [r]).find? p = some r := by
  induction l with
  | nil => simp [List.find?, hp]
  | cons a t ih =>
    have ha : p a = false := h a (List.mem_cons_self a t)
    rw [List.cons_append, List.find?_cons_of_neg _ (by simp [ha])]
    exact ih (fun x hx => h x (List.mem_cons_of_mem a hx))

theorem find?_map_status (l : List Row) (i : Nat) (s : String) :
    (l.map (fun r => if r.id == i then { r with status := some s } else r)).find?
        (fun r => r.id == i) =
      (l.find? (fun r => r.id == i)).map
        (fun r => if r.id == i then { r with status := some s } else r) := by
  induction l with
  | nil => simp
  | cons a t ih =>
    rw [List.map_cons, List.find?_cons, List.find?_cons]
    by_cases ha : (a.id == i) = true
    · have h1 : ((if a.id == i then { a with status := some s } else a).id == i) = true := by
        rw [if_pos ha]; exact ha
      rw [h1, ha]
      simp [ha]
      rw [if_pos (show a.id = i by simpa using ha)]
    · have h1 : ((if a.id == i then { a with status := some s } else a).id == i) = false := by
        rw [if_neg ha]; simpa using ha
      have h2 : (a.id == i) = false := by simpa using ha
      rw [h1, h2]
      simpa using ih

/-! ## Claim theorems -/

/-- C1: a submission with at least one required scalar field absent is
rejected with the missing-fields error, whose list contains exactly the
absent required fields — every one of them, not just the first — while a
field supplied as the empty string counts as present and never appears in
the list. -/
theorem submit_lists_every_missing_required_field
    (db : DBState) (req : SubmitRequest) (f0 : String)
    (hf0 : f0 ∈ requiredFields) (habs : req.body.lookup f0 = none) :
    submit db req = (.missingFieldsErr (missingFields req.body), db) ∧
    (∀ f, f ∈ missingFields req.body ↔ (f ∈ requiredFields ∧ req.body.lookup f = none)) ∧
    (∀ f, req.body.lookup f = some "" → f ∉ missingFields req.body) := by
  have hne : f0 ∈ missingFields req.body := (mem_missingFields req.body f0).mpr ⟨hf0, habs⟩
  have hpos : (missingFields req.body).length > 0 :=
    List.length_pos.mpr (List.ne_nil_of_mem hne)
  refine ⟨?_, fun f => mem_missingFields req.body f, ?_⟩
  · unfold submit
    rw [if_pos hpos]
  · intro f hf hmem
    have h2 := ((mem_missingFields req.body f).mp hmem).2
    rw [hf] at h2
    exact Option.noConfusion h2

/-- C1 witness: omitting both `full_name` and `skills` yields the
missing-fields rejection whose list carries both names, and the supplied
`email` field is not listed. -/
theorem submit_lists_every_missing_required_field_witness :
    c1Body.lookup "full_name" = none ∧
    submit emptyDB c1Req = (.missingFieldsErr (missingFields c1Body), emptyDB) ∧
    "full_name" ∈ missingFields c1Body ∧ "skills" ∈ missingFields c1Body ∧
    "email" ∉ missingFields c1Body := by
  have h := submit_lists_every_missing_required_field emptyDB c1Req "full_name"
    (by decide) (by rfl)
  refine ⟨by rfl, h.1, ?_, ?_, ?_⟩
  · exact (h.2.1 "full_name").mpr ⟨by decide, by rfl⟩
  · exact (h.2.1 "skills").mpr ⟨by decide, by rfl⟩
  · intro hmem
    have h2 := ((h.2.1 "email").mp hmem).2
    exact Option.noConfusion h2

/-- C4: integer sanitation — an empty or absent value yields null for a
nullable field and a rejection naming the field for the non-nullable one;
a present non-empty value goes through `parseInt(value, 10)` and a value
that parses to NaN is rejected with a message naming the field; through the
pipeline, an empty `ssc_year` (non-nullable) becomes the thrown-error
response. -/
theorem sanitizeInteger_spec (f s : String) (bl : Bool) (hs : s ≠ "") :
    (sanitizeInteger none f true = .ok none ∧
     sanitizeInteger (some "") f true = .ok none) ∧
    (∃ m, sanitizeInteger none f false = .error m ∧
       sanitizeInteger (some "") f false = .error m ∧ ∃ p q, m = p ++ f ++ q) ∧
    (∀ n, parseIntJS s = some n → sanitizeInteger (some s) f bl = .ok (some n)) ∧
    (parseIntJS s = none →
      ∃ m, sanitizeInteger (some s) f bl = .error m ∧ ∃ p q, m = p ++ f ++ q) ∧
    (∀ (db : DBState) (req : SubmitRequest),
      missingFields req.body = [] → req.body.lookup "ssc_year" = some "" →
      submit db req =
        (.sanitizeErr ("Invalid " ++ "ssc_year" ++ ": empty value not allowed for non-nullable field"),
         db)) := by
  have hb : (s == "") = false := by simpa using hs
  refine ⟨⟨rfl, rfl⟩,
    ⟨"Invalid " ++ f ++ ": empty value not allowed for non-nullable field",
      rfl, rfl, "Invalid ", ": empty value not allowed for non-nullable field", rfl⟩,
    ?_, ?_, ?_⟩
  · intro n hp
    simp [sanitizeInteger, hb, hp]
  · intro hp
    refine ⟨"Invalid " ++ f ++ ": \x22" ++ s ++ "\x22 is not a valid integer", ?_,
      "Invalid ", ": \x22" ++ s ++ "\x22 is not a valid integer", ?_⟩
    · simp [sanitizeInteger, hb, hp]
    · simp [String.append_assoc]
  · intro db req hmiss hlook
    unfold submit
    rw [hmiss]
    simp only [List.length_nil, gt_iff_lt, Nat.lt_irrefl, if_false]
    rw [hlook]
    simp [sanitizeInteger]

/-- C4 witness: concrete sanitations — nullable empties give null, "2010"
parses, "abc" is rejected with the message naming `ssc_year`, and an empty
`ssc_year` in an otherwise complete body yields the thrown-error
response. -/
theorem sanitizeInteger_spec_witness :
    sanitizeInteger none "intermediate_year" true = .ok none ∧
    sanitizeInteger (some "2010") "ssc_year" false = .ok (some 2010) ∧
    sanitizeInteger (some "abc") "ssc_year" false =
      .error "Invalid ssc_year: \x22abc\x22 is not a valid integer" ∧
    submit emptyDB
        ⟨("ssc_year", "") :: c1Body ++ [("full_name", "B"), ("skills", "SQL")], .absent,
          some "Uploads/resume-1.pdf", none⟩ =
      (.sanitizeErr "Invalid ssc_year: empty value not allowed for non-nullable field",
       emptyDB) := by
  have h1 := sanitizeInteger_spec "intermediate_year" "x" true (by decide)
  have h2 := sanitizeInteger_spec "ssc_year" "2010" false (by decide)
  have h3 := sanitizeInteger_spec "ssc_year" "abc" false (by decide)
  refine ⟨h1.1.1, h2.2.2.1 2010 (by decide), by rfl, ?_⟩
  exact h3.2.2.2.2 emptyDB _ (by decide) (by rfl)

/-- C2: once the required-field and integer-sanitation stages pass, a
partially filled intermediate or graduation group (some but not all fields
present and non-empty) makes the handler answer the
incomplete-optional-section error, while a group entirely absent or
entirely present passes the group check. -/
theorem submit_rejects_partial_education_group
    (db : DBState) (req : SubmitRequest) (y1 y2 y3 y4 : Option Int)
    (hmiss : missingFields req.body = [])
    (h1 : sanitizeInteger (req.body.lookup "ssc_year") "ssc_year" false = .ok y1)
    (h2 : sanitizeInteger (req.body.lookup "intermediate_year") "intermediate_year" true = .ok y2)
    (h3 : sanitizeInteger (req.body.lookup "graduation_year") "graduation_year" true = .ok y3)
    (h4 : sanitizeInteger (req.body.lookup "years_experience") "years_experience" true = .ok y4) :
    (((∃ f ∈ intermediateFields, jsTruthy (req.body.lookup f) = true) ∧
      (∃ f ∈ intermediateFields, jsTruthy (req.body.lookup f) = false)) →
      submit db req = (.incompleteSection, db)) ∧
    (((∃ f ∈ graduationFields, jsTruthy (req.body.lookup f) = true) ∧
      (∃ f ∈ graduationFields, jsTruthy (req.body.lookup f) = false)) →
      submit db req = (.incompleteSection, db)) ∧
    (∀ fields : List String,
      ((∀ f ∈ fields, jsTruthy (req.body.lookup f) = false) ∨
       (∀ f ∈ fields, jsTruthy (req.body.lookup f) = true)) →
      validateEducationSection req.body fields = true) := by
  refine ⟨?_, ?_, fun fields h =>
    validateEducationSection_true_of_uniform req.body fields h⟩
  · rintro ⟨hsome, hnot⟩
    apply submit_steps_to_groups db req y1 y2 y3 y4 hmiss h1 h2 h3 h4
    rw [validateEducationSection_false_of_mixed req.body intermediateFields hsome hnot]
    simp
  · rintro ⟨hsome, hnot⟩
    apply submit_steps_to_groups db req y1 y2 y3 y4 hmiss h1 h2 h3 h4
    rw [validateEducationSection_false_of_mixed req.body graduationFields hsome hnot]
    simp

/-- C2 witness: `intermediate_board` alone is rejected with the
incomplete-optional-section error; the all-absent and all-present
intermediate groups pass the group check. -/
theorem submit_rejects_partial_education_group_witness :
    submit emptyDB c2Req = (.incompleteSection, emptyDB) ∧
    validateEducationSection baseBody intermediateFields = true ∧
    validateEducationSection
      (("intermediate_board", "CBSE") :: ("intermediate_year", "2012") ::
        ("intermediate_percentage", "88") :: baseBody) intermediateFields = true := by
  have h := submit_rejects_partial_education_group emptyDB c2Req
    (some 2010) none none none (by rfl) (by rfl) (by rfl) (by rfl) (by rfl)
  exact ⟨h.1 ⟨⟨"intermediate_board", by decide, by rfl⟩,
      ⟨"intermediate_year", by decide, by rfl⟩⟩, by decide, by decide⟩

/-- C3: for an "Experienced" submission that passed the earlier stages, the
handler rejects with the incomplete-optional-section error unless all six
experience-detail fields are present and non-empty; with all six set (and
the remaining stages fine) the submission is accepted and stored. -/
theorem submit_experienced_requires_full_details
    (db : DBState) (req : SubmitRequest) (y1 y2 y3 y4 : Option Int)
    (hmiss : missingFields req.body = [])
    (h1 : sanitizeInteger (req.body.lookup "ssc_year") "ssc_year" false = .ok y1)
    (h2 : sanitizeInteger (req.body.lookup "intermediate_year") "intermediate_year" true = .ok y2)
    (h3 : sanitizeInteger (req.body.lookup "graduation_year") "graduation_year" true = .ok y3)
    (h4 : sanitizeInteger (req.body.lookup "years_experience") "years_experience" true = .ok y4)
    (hint : validateEducationSection req.body intermediateFields = true)
    (hgrad : validateEducationSection req.body graduationFields = true)
    (hexp : req.body.lookup "experience_status" = some "Experienced") :
    ((jsTruthy (req.body.lookup "years_experience") &&
      jsTruthy (req.body.lookup "company_name") &&
      jsTruthy (req.body.lookup "designation") &&
      jsTruthy (req.body.lookup "work_location") &&
      jsTruthy (req.body.lookup "start_date") &&
      jsTruthy (req.body.lookup "end_date")) = false →
      submit db req = (.incompleteSection, db)) ∧
    (∀ entries : List EduEntry,
      (jsTruthy (req.body.lookup "years_experience") &&
       jsTruthy (req.body.lookup "company_name") &&
       jsTruthy (req.body.lookup "designation") &&
       jsTruthy (req.body.lookup "work_location") &&
       jsTruthy (req.body.lookup "start_date") &&
       jsTruthy (req.body.lookup "end_date")) = true →
      processAdditionalEducation req.additional_education = .ok entries →
      entries.all entryComplete = true →
      jsTruthy req.resumePath = true →
      db.rows.any (fun x =>
        x.email == req.body.lookup "email" && (req.body.lookup "email").isSome) = false →
      submit db req = (.success db.nextId,
        ⟨db.rows ++ [buildRow req.body y1 y2 y3 y4 entries req.resumePath
            req.coverLetterPath db.nextId],
         db.nextId + 1⟩)) := by
  constructor
  · intro hsix
    apply submit_steps_to_groups db req y1 y2 y3 y4 hmiss h1 h2 h3 h4
    have hev : experienceValid req.body = false := by
      unfold experienceValid
      rw [hexp, hsix]
      simp
    rw [hint, hgrad, hev]
    simp
  · intro entries hsix hadd hcomp hres hdup
    have hev : experienceValid req.body = true := by
      unfold experienceValid
      rw [hexp, hsix]
      simp
    exact submit_success_char db req y1 y2 y3 y4 entries hmiss h1 h2 h3 h4
      hint hgrad hev hadd hcomp hres hdup

/-- C3 witness: `years_experience` set with `company_name` empty is
rejected; with all six detail fields set the submission is accepted and the
row is stored under the next id. -/
theorem submit_experienced_requires_full_details_witness :
    submit emptyDB c3BadReq = (.incompleteSection, emptyDB) ∧
    submit emptyDB c3GoodReq = (.success 1,
      ⟨[buildRow c3GoodBody (some 2010) none none (some 2) []
          (some "Uploads/resume-1.pdf") none 1], 2⟩) := by
  have hbad := submit_experienced_requires_full_details emptyDB c3BadReq
    (some 2010) none none (some 2) (by rfl) (by rfl) (by rfl) (by rfl) (by rfl)
    (by rfl) (by rfl) (by rfl)
  have hgood := submit_experienced_requires_full_details emptyDB c3GoodReq
    (some 2010) none none (some 2) (by rfl) (by rfl) (by rfl) (by rfl) (by rfl)
    (by rfl) (by rfl) (by rfl)
  exact ⟨hbad.1 (by rfl), hgood.2 [] (by rfl) (by rfl) (by rfl) (by rfl) (by rfl)⟩

/-- Once every stage before the per-entry check passes, an incomplete
additional-education entry makes the handler answer
`Incomplete additional education data`. -/
theorem submit_steps_to_entries (db : DBState) (req : SubmitRequest)
    (y1 y2 y3 y4 : Option Int) (entries : List EduEntry)
    (hmiss : missingFields req.body = [])
    (h1 : sanitizeInteger (req.body.lookup "ssc_year") "ssc_year" false = .ok y1)
    (h2 : sanitizeInteger (req.body.lookup "intermediate_year") "intermediate_year" true = .ok y2)
    (h3 : sanitizeInteger (req.body.lookup "graduation_year") "graduation_year" true = .ok y3)
    (h4 : sanitizeInteger (req.body.lookup "years_experience") "years_experience" true = .ok y4)
    (hint : validateEducationSection req.body intermediateFields = true)
    (hgrad : validateEducationSection req.body graduationFields = true)
    (hexp : experienceValid req.body = true)
    (hadd : processAdditionalEducation req.additional_education = .ok entries)
    (hbad : entries.all entryComplete = false) :
    submit db req = (.incompleteAdditionalEducation, db) := by
  unfold submit
  rw [hmiss]
  simp only [List.length_nil, gt_iff_lt, Nat.lt_irrefl, if_false]
  rw [h1, h2, h3, h4]
  simp only []
  rw [hint, hgrad, hexp]
  simp only [Bool.not_true, Bool.or_self, Bool.false_or, Bool.or_false, if_false]
  rw [hadd]
  simp only []
  rw [hbad]
  simp

/-- A row inserted with the next SERIAL id is fetched back by that id when
no earlier row carries it. -/
theorem getById_after_success (db : DBState) (r : Row)
    (hfresh : ∀ x ∈ db.rows, (x.id == db.nextId) = false)
    (hid : r.id = db.nextId) :
    getById ⟨db.rows ++ [r], db.nextId + 1⟩ db.nextId = some r := by
  unfold getById
  exact find?_append_singleton db.rows r _ hfresh (by rw [hid]; simp)

/-- C5: a structured additional-education sequence whose entries all have
the four sub-fields non-empty is accepted, stored, and fetched back
unchanged by the returned id; an entry lacking a sub-field makes the whole
submission rejected. -/
theorem additional_education_roundtrip
    (db : DBState) (req : SubmitRequest) (y1 y2 y3 y4 : Option Int)
    (entries : List EduEntry)
    (hmiss : missingFields req.body = [])
    (h1 : sanitizeInteger (req.body.lookup "ssc_year") "ssc_year" false = .ok y1)
    (h2 : sanitizeInteger (req.body.lookup "intermediate_year") "intermediate_year" true = .ok y2)
    (h3 : sanitizeInteger (req.body.lookup "graduation_year") "graduation_year" true = .ok y3)
    (h4 : sanitizeInteger (req.body.lookup "years_experience") "years_experience" true = .ok y4)
    (hint : validateEducationSection req.body intermediateFields = true)
    (hgrad : validateEducationSection req.body graduationFields = true)
    (hexp : experienceValid req.body = true)
    (hstruct : req.additional_education = .structured entries)
    (hres : jsTruthy req.resumePath = true)
    (hdup : db.rows.any (fun x =>
        x.email == req.body.lookup "email" && (req.body.lookup "email").isSome) = false)
    (hfresh : ∀ x ∈ db.rows, (x.id == db.nextId) = false) :
    (entries.all entryComplete = true →
      submit db req = (.success db.nextId,
        ⟨db.rows ++ [buildRow req.body y1 y2 y3 y4 entries req.resumePath
            req.coverLetterPath db.nextId],
         db.nextId + 1⟩) ∧
      getById (submit db req).2 db.nextId =
        some (buildRow req.body y1 y2 y3 y4 entries req.resumePath
          req.coverLetterPath db.nextId) ∧
      (buildRow req.body y1 y2 y3 y4 entries req.resumePath
        req.coverLetterPath db.nextId).additional_education = entries) ∧
    ((∃ e ∈ entries, entryComplete e = false) →
      submit db req = (.incompleteAdditionalEducation, db)) := by
  have hadd : processAdditionalEducation req.additional_education = .ok entries := by
    rw [hstruct]
    rfl
  constructor
  · intro hcomp
    have hsub := submit_success_char db req y1 y2 y3 y4 entries hmiss h1 h2 h3 h4
      hint hgrad hexp hadd hcomp hres hdup
    refine ⟨hsub, ?_, rfl⟩
    rw [hsub]
    exact getById_after_success db _ hfresh rfl
  · rintro ⟨e, he, hce⟩
    have hbad : entries.all entryComplete = false := by
      cases hall : entries.all entryComplete with
      | false => rfl
      | true =>
        have := List.all_eq_true.mp hall e he
        rw [hce] at this
        exact absurd this (by simp)
    exact submit_steps_to_entries db req y1 y2 y3 y4 entries hmiss h1 h2 h3 h4
      hint hgrad hexp hadd hbad

/-- C5 witness: the spec's single-entry example round-trips (stored and
fetched back by the returned id), and the same entry without `percentage`
rejects the whole submission. -/
theorem additional_education_roundtrip_witness :
    submit emptyDB c5GoodReq = (.success 1,
      ⟨[buildRow baseBody (some 2010) none none none [c5Entry]
          (some "Uploads/resume-1.pdf") none 1], 2⟩) ∧
    getById (submit emptyDB c5GoodReq).2 1 =
      some (buildRow baseBody (some 2010) none none none [c5Entry]
        (some "Uploads/resume-1.pdf") none 1) ∧
    (buildRow baseBody (some 2010) none none none [c5Entry]
      (some "Uploads/resume-1.pdf") none 1).additional_education = [c5Entry] ∧
    submit emptyDB c5BadReq = (.incompleteAdditionalEducation, emptyDB) := by
  have hgood := additional_education_roundtrip emptyDB c5GoodReq
    (some 2010) none none none [c5Entry] (by rfl) (by rfl) (by rfl) (by rfl)
    (by rfl) (by rfl) (by rfl) (by rfl) (by rfl) (by rfl) (by rfl)
    (by intro x hx; exact absurd hx (List.not_mem_nil x))
  have hbad := additional_education_roundtrip emptyDB c5BadReq
    (some 2010) none none none [c5BadEntry] (by rfl) (by rfl) (by rfl) (by rfl)
    (by rfl) (by rfl) (by rfl) (by rfl) (by rfl) (by rfl) (by rfl)
    (by intro x hx; exact absurd hx (List.not_mem_nil x))
  obtain ⟨hs, hg, hae⟩ := hgood.1 (by rfl)
  exact ⟨hs, hg, hae, hbad.2 ⟨c5BadEntry, by decide, by rfl⟩⟩

/-- C10: when `experience_status` is not "Experienced", the experience
group undergoes no all-or-nothing validation — `experienceValid` is true no
matter which detail fields are set — and on acceptance the detail fields
are persisted exactly as given, absent ones as null and `years_experience`
as its sanitized value. -/
theorem non_experienced_skips_experience_group
    (db : DBState) (req : SubmitRequest) (y1 y2 y3 y4 : Option Int)
    (entries : List EduEntry) (st : String)
    (hmiss : missingFields req.body = [])
    (h1 : sanitizeInteger (req.body.lookup "ssc_year") "ssc_year" false = .ok y1)
    (h2 : sanitizeInteger (req.body.lookup "intermediate_year") "intermediate_year" true = .ok y2)
    (h3 : sanitizeInteger (req.body.lookup "graduation_year") "graduation_year" true = .ok y3)
    (h4 : sanitizeInteger (req.body.lookup "years_experience") "years_experience" true = .ok y4)
    (hint : validateEducationSection req.body intermediateFields = true)
    (hgrad : validateEducationSection req.body graduationFields = true)
    (hst : req.body.lookup "experience_status" = some st)
    (hne : st ≠ "Experienced")
    (hadd : processAdditionalEducation req.additional_education = .ok entries)
    (hcomp : entries.all entryComplete = true)
    (hres : jsTruthy req.resumePath = true)
    (hdup : db.rows.any (fun x =>
        x.email == req.body.lookup "email" && (req.body.lookup "email").isSome) = false)
    (hfresh : ∀ x ∈ db.rows, (x.id == db.nextId) = false) :
    experienceValid req.body = true ∧
    submit db req = (.success db.nextId,
      ⟨db.rows ++ [buildRow req.body y1 y2 y3 y4 entries req.resumePath
          req.coverLetterPath db.nextId],
       db.nextId + 1⟩) ∧
    getById (submit db req).2 db.nextId =
      some (buildRow req.body y1 y2 y3 y4 entries req.resumePath
        req.coverLetterPath db.nextId) ∧
    (buildRow req.body y1 y2 y3 y4 entries req.resumePath
      req.coverLetterPath db.nextId).company_name = req.body.lookup "company_name" ∧
    (buildRow req.body y1 y2 y3 y4 entries req.resumePath
      req.coverLetterPath db.nextId).designation = req.body.lookup "designation" ∧
    (buildRow req.body y1 y2 y3 y4 entries req.resumePath
      req.coverLetterPath db.nextId).work_location = req.body.lookup "work_location" ∧
    (buildRow req.body y1 y2 y3 y4 entries req.resumePath
      req.coverLetterPath db.nextId).start_date = req.body.lookup "start_date" ∧
    (buildRow req.body y1 y2 y3 y4 entries req.resumePath
      req.coverLetterPath db.nextId).end_date = req.body.lookup "end_date" ∧
    (buildRow req.body y1 y2 y3 y4 entries req.resumePath
      req.coverLetterPath db.nextId).years_experience = y4 := by
  have hev : experienceValid req.body = true := by
    unfold experienceValid
    rw [hst]
    simp [hne]
  have hsub := submit_success_char db req y1 y2 y3 y4 entries hmiss h1 h2 h3 h4
    hint hgrad hev hadd hcomp hres hdup
  refine ⟨hev, hsub, ?_, rfl, rfl, rfl, rfl, rfl, rfl⟩
  rw [hsub]
  exact getById_after_success db _ hfresh rfl

/-- C10 witness: a fresher submission with `company_name` set and
`designation` (and the rest of the detail group) absent passes validation,
is stored, and the fetched row holds the given `company_name`, null
`designation`, and null `years_experience`. -/
theorem non_experienced_skips_experience_group_witness :
    experienceValid c10Body = true ∧
    submit emptyDB c10Req = (.success 1,
      ⟨[buildRow c10Body (some 2010) none none none []
          (some "Uploads/resume-1.pdf") none 1], 2⟩) ∧
    (buildRow c10Body (some 2010) none none none []
      (some "Uploads/resume-1.pdf") none 1).company_name = some "Acme" ∧
    (buildRow c10Body (some 2010) none none none []
      (some "Uploads/resume-1.pdf") none 1).designation = none ∧
    (buildRow c10Body (some 2010) none none none []
      (some "Uploads/resume-1.pdf") none 1).years_experience = none := by
  have h := non_experienced_skips_experience_group emptyDB c10Req
    (some 2010) none none none [] "Fresher" (by rfl) (by rfl) (by rfl) (by rfl)
    (by rfl) (by rfl) (by rfl) (by rfl) (by decide) (by rfl) (by rfl) (by rfl)
    (by rfl) (by intro x hx; exact absurd hx (List.not_mem_nil x))
  exact ⟨h.1, h.2.1, by rfl, by rfl, by rfl⟩

/-- C6: email is globally unique — inserting a second application whose
email equals an existing row's fails with the duplicate-key outcome, the
table is unchanged, and the first application stays retrievable by its
id. -/
theorem insert_duplicate_email_rejected
    (db : DBState) (mk : Nat → Row) (i : Nat) (r0 : Row) (e : String)
    (hget : getById db i = some r0)
    (he : r0.email = some e)
    (hmk : (mk db.nextId).email = some e)
    (hnn : notNullOk (mk db.nextId) = true) :
    insertRow db mk = (.duplicateEmail, db) ∧
    getById (insertRow db mk).2 i = some r0 := by
  have hmem : r0 ∈ db.rows := List.mem_of_find?_eq_some hget
  have hany : db.rows.any (fun x =>
      x.email == (mk db.nextId).email && (mk db.nextId).email.isSome) = true := by
    rw [List.any_eq_true]
    exact ⟨r0, hmem, by rw [he, hmk]; simp⟩
  have heq : insertRow db mk = (.duplicateEmail, db) := by
    unfold insertRow
    simp only []
    rw [hnn, hany]
    simp
  exact ⟨heq, by rw [heq]; exact hget⟩

/-- C6 witness: a second applicant reusing `asha@example.com` is rejected
with the duplicate-key outcome and the first row is still fetched by id 1;
the same duplicate insert through the submit pipeline answers the database
error. -/
theorem insert_duplicate_email_rejected_witness :
    insertRow oneRowDB c6Mk = (.duplicateEmail, oneRowDB) ∧
    getById (insertRow oneRowDB c6Mk).2 1 = some baseRow := by
  have h := insert_duplicate_email_rejected oneRowDB c6Mk 1 baseRow
    "asha@example.com" (by rfl) (by rfl) (by rfl) (by rfl)
  exact ⟨h.1, h.2⟩

/-- C7: a status outside the four-value enum is rejected as invalid before
any query, leaving the state (hence every row's status) unchanged; a status
in the enum answers NotFound for an absent id, and for an existing id the
update succeeds returning the id and a subsequent fetch shows the new
status. -/
theorem updateStatus_spec (db : DBState) (i : Nat) :
    (∀ s : String, allowedStatuses.contains s = false →
      updateStatus db i (some s) = (.invalidStatus, db)) ∧
    (updateStatus db i none = (.invalidStatus, db)) ∧
    (∀ s : String, allowedStatuses.contains s = true →
      db.rows.any (fun r => r.id == i) = false →
      updateStatus db i (some s) = (.notFound, db)) ∧
    (∀ (s : String) (r0 : Row), allowedStatuses.contains s = true →
      getById db i = some r0 →
      (updateStatus db i (some s)).1 = .ok i ∧
      getById (updateStatus db i (some s)).2 i = some { r0 with status := some s }) := by
  refine ⟨?_, rfl, ?_, ?_⟩
  · intro s hs
    have hsa : statusAllowed (some s) = false := hs
    unfold updateStatus
    rw [hsa]
    simp
  · intro s hs hnone
    have hsa : statusAllowed (some s) = true := hs
    unfold updateStatus
    rw [hsa]
    simp only [Bool.not_true, Bool.false_eq_true, if_false]
    rw [hnone]
    simp
  · intro s r0 hs hget
    have hget2 : List.find? (fun r => r.id == i) db.rows = some r0 := hget
    have hp0 := List.find?_some hget2
    have hp : (r0.id == i) = true := hp0
    have hany : db.rows.any (fun r => r.id == i) = true := by
      rw [List.any_eq_true]
      exact ⟨r0, List.mem_of_find?_eq_some hget2, hp⟩
    have hsa : statusAllowed (some s) = true := hs
    have hupd : updateStatus db i (some s) = (.ok i,
        ⟨db.rows.map (fun r => if r.id == i then { r with status := some s } else r),
         db.nextId⟩) := by
      unfold updateStatus
      rw [hsa]
      simp only [Bool.not_true, Bool.false_eq_true, if_false]
      rw [hany]
      simp
    refine ⟨by rw [hupd], ?_⟩
    rw [hupd]
    unfold getById
    simp only []
    rw [find?_map_status, hget2]
    simp only [Option.map_some']
    rw [if_pos hp]

/-- C7 witness: "Archived" is rejected leaving the one-row table unchanged,
"Approved" on a missing id answers NotFound, and "Approved" on id 1
succeeds with the fetched row showing the new status. -/
theorem updateStatus_spec_witness :
    updateStatus oneRowDB 1 (some "Archived") = (.invalidStatus, oneRowDB) ∧
    updateStatus oneRowDB 5 (some "Approved") = (.notFound, oneRowDB) ∧
    (updateStatus oneRowDB 1 (some "Approved")).1 = .ok 1 ∧
    getById (updateStatus oneRowDB 1 (some "Approved")).2 1 =
      some { baseRow with status := some "Approved" } := by
  have h := updateStatus_spec oneRowDB 1
  have h5 := updateStatus_spec oneRowDB 5
  have hok := h.2.2.2 "Approved" baseRow (by decide) (by rfl)
  exact ⟨h.1 "Archived" (by decide), h5.2.2.1 "Approved" (by decide) (by rfl),
    hok.1, hok.2⟩

/-- C8 counterexample: on a one-row table whose row has a resume file, with
`unlinkSync` throwing, the delete endpoint answers the catch-all error
response — not success as the claim states — although the row is already
removed; with working unlinks the same call succeeds. -/
theorem delete_unlink_failure_reports_error :
    (deleteApp oneRowDB fsAllFail 1).1 = .errCaught ∧
    ¬((deleteApp oneRowDB fsAllFail 1).1 = .ok 1) ∧
    (deleteApp oneRowDB fsAllFail 1).2.rows = [] ∧
    (deleteApp oneRowDB fsAllOk 1).1 = .ok 1 := by decide

/-- C8 (amended): for delete on an existing id the record removal always
takes effect, whatever the filesystem does, and the endpoint reports
success exactly when no attachment unlink throws (otherwise the 500 path);
for clearAll, attachment-deletion failures are fully swallowed: the
truncation and the success response hold for every filesystem oracle. -/
theorem delete_record_always_removed_clear_swallows
    (db : DBState) (fs : FSModel) (i : Nat) (row : Row)
    (hfind : db.rows.find? (fun r => r.id == i) = some row) :
    (deleteApp db fs i).2 = ⟨db.rows.filter (fun r => !(r.id == i)), db.nextId⟩ ∧
    ((deleteApp db fs i).1 = .ok i ↔
      (unlinkThrows fs row.resume_path = false ∧
       unlinkThrows fs row.cover_letter_path = false)) ∧
    ((deleteApp db fs i).1 = .ok i ∨ (deleteApp db fs i).1 = .errCaught) ∧
    (∀ (db2 : DBState) (fs2 : FSModel), clearAll db2 fs2 = (.ok, ⟨[], 1⟩)) := by
  unfold deleteApp
  rw [hfind]
  simp only []
  cases hr : unlinkThrows fs row.resume_path with
  | true =>
    simp [hr, clearAll]
  | false =>
    cases hc : unlinkThrows fs row.cover_letter_path with
    | true => simp [hr, hc, clearAll]
    | false => simp [hr, hc, clearAll]

/-- C8 amended witness: concrete one-row table — the row is removed for
both the failing and the working filesystem, clearAll always succeeds, and
the success response appears exactly on the working filesystem. -/
theorem delete_record_always_removed_clear_swallows_witness :
    (deleteApp oneRowDB fsAllFail 1).2 = ⟨[], 2⟩ ∧
    (deleteApp oneRowDB fsAllOk 1).2 = ⟨[], 2⟩ ∧
    (deleteApp oneRowDB fsAllOk 1).1 = .ok 1 ∧
    clearAll oneRowDB fsAllFail = (.ok, ⟨[], 1⟩) := by
  have hfail := delete_record_always_removed_clear_swallows oneRowDB fsAllFail 1
    baseRow (by rfl)
  have hok := delete_record_always_removed_clear_swallows oneRowDB fsAllOk 1
    baseRow (by rfl)
  refine ⟨by rw [hfail.1]; rfl, by rw [hok.1]; rfl, ?_, hfail.2.2.2 oneRowDB fsAllFail⟩
  exact hok.2.1.mpr ⟨by rfl, by rfl⟩

/-- The add-loop adds exactly the longest failure-free prefix of the
column names and records the first failing column, attempting nothing after
it. -/
theorem runColumnAdds_characterization (alterFails : String → Bool)
    (cols : List ColumnSpec) :
    runColumnAdds alterFails cols =
      ⟨(cols.map ColumnSpec.name).takeWhile (fun n => !(alterFails n)),
       ((cols.map ColumnSpec.name).dropWhile (fun n => !(alterFails n))).head?⟩ := by
  induction cols with
  | nil => rfl
  | cons c rest ih =>
    by_cases hc : alterFails c.name = true
    · unfold runColumnAdds
      rw [if_pos hc]
      simp [List.takeWhile_cons, List.dropWhile_cons, hc]
    · have hc2 : alterFails c.name = false := by simpa using hc
      unfold runColumnAdds
      rw [if_neg hc, ih]
      simp [List.takeWhile_cons, List.dropWhile_cons, hc2]

/-- C9 counterexample: with an empty introspection result every expected
column is missing; an ALTER failure on the first column ("id") stops the
loop, so "full_name" — also missing and whose own ALTER would succeed — is
never attempted, contradicting the claimed per-column independence. -/
theorem sync_failure_aborts_remaining_columns :
    (syncApplicationsTable [] (fun n => n == "id")).failed = some "id" ∧
    (syncApplicationsTable [] (fun n => n == "id")).added = [] ∧
    "full_name" ∈ (missingColumns []).map ColumnSpec.name ∧
    (fun n => n == "id") "full_name" = false := by decide

/-- C9 (amended): schema sync processes missing columns strictly in
declaration order and stops at the first failure — the added columns are
exactly the longest failure-free prefix of the missing list, and the first
failing column is recorded by the function-level catch (so the error does
not escape `syncApplicationsTable` and the rest of startup proceeds), but
the columns after the failure are not attempted. -/
theorem syncApplicationsTable_stops_at_first_failure
    (existing : List String) (alterFails : String → Bool) :
    syncApplicationsTable existing alterFails =
      ⟨((missingColumns existing).map ColumnSpec.name).takeWhile
          (fun n => !(alterFails n)),
        (((missingColumns existing).map ColumnSpec.name).dropWhile
          (fun n => !(alterFails n))).head?⟩ :=
  runColumnAdds_characterization alterFails (missingColumns existing)
